import Mathlib

/-!
Shallow embedding of the akari daemon's lifecycle-coordination engine
(`src/crates/server/src/main.rs`) and the API data types it uses.

The `ApiServer` handlers (`create`, `delete`, `kill`, `start`, `state`,
`connect`) are modelled as pure functions on an association-list model of
the `HashMap<String, ContainerState>` registry.  The command queue is
modelled by explicit Booleans saying whether each `cmd_tx.send` succeeds;
every attempted send is recorded, with its outcome, in an `attempts`
trace so that "issues no commands" and "does not retry" are visible in the
result.  The shared vsock reply queue (`data_rx`) is modelled as a list of
`(port, data)` pairs; `recv` takes the head, and an empty list models the
closed channel on which `recv` returns `None` (which the source unwraps,
i.e. panics).
-/

set_option linter.unusedVariables false

namespace Akari

/-- Container status, from `VmStatus` in `src/src/api.rs`
(variants `Creating, Created, Running, Stopped`). -/
inductive VmStatus where
  | Creating
  | Created
  | Running
  | Stopped
deriving DecidableEq, Repr

/-- API error values, as constructed in `src/crates/server/src/main.rs`
(the defining crate `libakari::api` is not among the sources; the variant
spelling `UnpextectedContainerStatus` [sic] is taken from `main.rs` usage
and corresponds to the spec's `UnexpectedContainerStatus`). -/
inductive ApiError where
  | ContainerAlreadyExists
  | ContainerNotFound
  | UnpextectedContainerStatus (status : VmStatus)
  | VmCommandFailed
deriving DecidableEq, Repr

/-- Commands sent to the VM thread, as used in `main.rs` / spec section 3:
variants `Start`, `Kill`, `Connect(port)`, `Disconnect(port)`,
`VsockSend(port, bytes)`, `VsockRecv(port)`.  Byte payloads are
represented by the strings whose bytes they are. -/
inductive Command where
  | Start
  | Kill
  | Connect (port : Nat)
  | Disconnect (port : Nat)
  | VsockSend (port : Nat) (data : String)
  | VsockRecv (port : Nat)
deriving DecidableEq, Repr

/-- `ContainerState` from `main.rs` lines 52-57: bundle path, status and
vsock port of one registered container. -/
structure ContainerState where
  bundle : String
  status : VmStatus
  vsock_port : Nat
deriving DecidableEq, Repr

/-- The registry `HashMap<String, ContainerState>`, modelled as an
association list in insertion order (`main.rs` only inserts fresh keys,
so keys stay distinct). -/
abbrev ContainerStateMap := List (String × ContainerState)

/-- `Response` as built by `ApiServer::state` in `main.rs` lines 220-225. -/
structure Response where
  container_id : String
  status : VmStatus
  pid : Option Int
  bundle : String
deriving DecidableEq, Repr

/-- Modelled from the spec: the create request carries the OCI bundle path
("`create(container_id: string, bundle: path)`"); the defining type
`libakari::api::CreateRequest` is not among the sources, `main.rs` uses
only its `bundle` field. -/
structure CreateRequest where
  bundle : String
deriving DecidableEq, Repr

/-- Modelled from the spec: "the create path instead sends a structured
JSON payload describing the creation request"
(`serde_json::to_string(&req)` in `main.rs` line 95). -/
def encodeCreateRequest (req : CreateRequest) : String :=
  "\x7b\"bundle\":\"" ++ req.bundle ++ "\"\x7d"

/-- `HashMap::get` on the association-list registry model. -/
def mapGet : ContainerStateMap → String → Option ContainerState
  | [], _ => none
  | (k, v) :: rest, key => if k = key then some v else mapGet rest key

/-- `HashMap::contains_key` on the registry model. -/
def containsKey (m : ContainerStateMap) (key : String) : Bool :=
  (mapGet m key).isSome

/-- In-place mutation through `HashMap::get_mut` (e.g.
`state.status = VmStatus::Stopped`): rewrite the value stored at `key`. -/
def mapUpdate : ContainerStateMap → String → (ContainerState → ContainerState) → ContainerStateMap
  | [], _, _ => []
  | (k, v) :: rest, key, f =>
    if k = key then (k, f v) :: mapUpdate rest key f
    else (k, v) :: mapUpdate rest key f

/-- `HashMap::remove` on the registry model. -/
def mapRemove (m : ContainerStateMap) (key : String) : ContainerStateMap :=
  m.filter (fun p => decide (p.1 ≠ key))

/-- `HashMap::insert` on the registry model: replace the existing entry,
or append a new one. -/
def mapInsert (m : ContainerStateMap) (key : String) (v : ContainerState) : ContainerStateMap :=
  if containsKey m key then mapUpdate m key (fun _ => v) else m ++ [(key, v)]

/-- `DEFAULT_MIN_PORT` from `main.rs` line 88. -/
def DEFAULT_MIN_PORT : Nat := 1234

/-- Port allocation in `ApiServer::create`, `main.rs` lines 88-93:
start from `DEFAULT_MIN_PORT - 1`, fold `max` over all registered
`vsock_port`s, then add 1. -/
def allocPort (m : ContainerStateMap) : Nat :=
  (m.foldl (fun port st => max port st.2.vsock_port) (DEFAULT_MIN_PORT - 1)) + 1

deriving instance DecidableEq for Except

/-- Environment of one `create` call: whether the `Connect` send and the
`VsockSend` send on the command queue succeed, and the contents of the
shared reply queue (`[]` models the closed channel whose `recv` yields
`None`). -/
structure CreateEnv where
  connectOk : Bool
  sendOk : Bool
  replies : List (Nat × String)
deriving DecidableEq, Repr

/-- Result of one `create` call: the returned value, the registry
afterwards, the trace of attempted command-queue sends (command, success)
in order, and the remaining reply queue; `panicked` models the `unwrap()`
on `data_rx.recv()` returning `None` (`main.rs` line 106). -/
inductive CreateResult where
  | ret (result : Except ApiError Unit) (state_map : ContainerStateMap)
        (attempts : List (Command × Bool)) (replies : List (Nat × String))
  | panicked (state_map : ContainerStateMap) (attempts : List (Command × Bool))
deriving DecidableEq, Repr

/-- The registry left behind by a `create` call, in either outcome. -/
def resultMap : CreateResult → ContainerStateMap
  | .ret _ m _ _ => m
  | .panicked m _ => m

/-- Result of the other handlers: returned value, registry afterwards,
and the trace of attempted command-queue sends. -/
structure OpResult (α : Type) where
  result : Except ApiError α
  state_map : ContainerStateMap
  attempts : List (Command × Bool)
deriving DecidableEq, Repr

/-- `ApiServer::create`, `main.rs` lines 70-117: reject an existing id;
allocate `max + 1`; send `Connect(port)` then `VsockSend(port, payload)`
(a failed send is `VmCommandFailed`); await one reply-queue entry
(panicking if the queue is closed); insert the new entry with status
`Creating` and the port carried by the reply. -/
def create (env : CreateEnv) (m : ContainerStateMap) (container_id : String)
    (req : CreateRequest) : CreateResult :=
  if containsKey m container_id then
    .ret (.error .ContainerAlreadyExists) m [] env.replies
  else
    let port := allocPort m
    let req_str := encodeCreateRequest req
    if env.connectOk then
      if env.sendOk then
        match env.replies with
        | [] =>
          .panicked m [(.Connect port, true), (.VsockSend port req_str, true)]
        | (p, _data) :: rest =>
          .ret (.ok ()) (mapInsert m container_id ⟨req.bundle, .Creating, p⟩)
            [(.Connect port, true), (.VsockSend port req_str, true)] rest
      else
        .ret (.error .VmCommandFailed) m
          [(.Connect port, true), (.VsockSend port req_str, false)] env.replies
    else
      .ret (.error .VmCommandFailed) m [(.Connect port, false)] env.replies

/-- Payload of the vsock `delete` message (`main.rs` line 133). -/
def deleteMsg : String := "delete"

/-- Payload of the vsock `kill` message (`main.rs` line 163). -/
def killMsg : String := "kill"

/-- Payload of the vsock `start` message (`main.rs` line 189). -/
def startMsg : String := "start"

/-- Payload of the vsock `state` message (`main.rs` line 213). -/
def stateMsg : String := "state"

/-- `ApiServer::delete`, `main.rs` lines 119-147: resolve the container
(`ContainerNotFound` if absent); from `Created` or `Stopped` send
`VsockSend(port, "delete")` then `Disconnect(port)` and remove the entry;
otherwise fail with the current status. -/
def delete (sendOk disconnectOk : Bool) (m : ContainerStateMap)
    (container_id : String) : OpResult Unit :=
  match mapGet m container_id with
  | none => ⟨.error .ContainerNotFound, m, []⟩
  | some st =>
    match st.status with
    | .Created | .Stopped =>
      if sendOk then
        if disconnectOk then
          ⟨.ok (), mapRemove m container_id,
            [(.VsockSend st.vsock_port deleteMsg, true), (.Disconnect st.vsock_port, true)]⟩
        else
          ⟨.error .VmCommandFailed, m,
            [(.VsockSend st.vsock_port deleteMsg, true), (.Disconnect st.vsock_port, false)]⟩
      else
        ⟨.error .VmCommandFailed, m, [(.VsockSend st.vsock_port deleteMsg, false)]⟩
    | _ => ⟨.error (.UnpextectedContainerStatus st.status), m, []⟩

/-- `ApiServer::kill`, `main.rs` lines 149-173: from `Created` or
`Running` send `VsockSend(port, "kill")` and set the status to `Stopped`;
otherwise fail with the current status. -/
def kill (sendOk : Bool) (m : ContainerStateMap) (container_id : String) : OpResult Unit :=
  match mapGet m container_id with
  | none => ⟨.error .ContainerNotFound, m, []⟩
  | some st =>
    match st.status with
    | .Created | .Running =>
      if sendOk then
        ⟨.ok (), mapUpdate m container_id (fun s => { s with status := .Stopped }),
          [(.VsockSend st.vsock_port killMsg, true)]⟩
      else
        ⟨.error .VmCommandFailed, m, [(.VsockSend st.vsock_port killMsg, false)]⟩
    | _ => ⟨.error (.UnpextectedContainerStatus st.status), m, []⟩

/-- `ApiServer::start`, `main.rs` lines 175-199: from `Created` send
`VsockSend(port, "start")` and set the status to `Running`; otherwise
fail with the current status. -/
def start (sendOk : Bool) (m : ContainerStateMap) (container_id : String) : OpResult Unit :=
  match mapGet m container_id with
  | none => ⟨.error .ContainerNotFound, m, []⟩
  | some st =>
    match st.status with
    | .Created =>
      if sendOk then
        ⟨.ok (), mapUpdate m container_id (fun s => { s with status := .Running }),
          [(.VsockSend st.vsock_port startMsg, true)]⟩
      else
        ⟨.error .VmCommandFailed, m, [(.VsockSend st.vsock_port startMsg, false)]⟩
    | _ => ⟨.error (.UnpextectedContainerStatus st.status), m, []⟩

/-- `ApiServer::state`, `main.rs` lines 201-227: resolve the container,
send `VsockSend(port, "state")`, and return the registry view of the
container (pid is unimplemented, always `None`). -/
def state (sendOk : Bool) (m : ContainerStateMap) (container_id : String) : OpResult Response :=
  match mapGet m container_id with
  | none => ⟨.error .ContainerNotFound, m, []⟩
  | some st =>
    if sendOk then
      ⟨.ok ⟨container_id, st.status, none, st.bundle⟩, m,
        [(.VsockSend st.vsock_port stateMsg, true)]⟩
    else
      ⟨.error .VmCommandFailed, m, [(.VsockSend st.vsock_port stateMsg, false)]⟩

/-- `ApiServer::connect`, `main.rs` lines 229-249: resolve the container;
from `Running` this is an unimplemented passthrough returning success and
issuing no commands; otherwise fail with the current status. -/
def connect (m : ContainerStateMap) (container_id : String) (_port : Nat) : OpResult Unit :=
  match mapGet m container_id with
  | none => ⟨.error .ContainerNotFound, m, []⟩
  | some st =>
    match st.status with
    | .Running => ⟨.ok (), m, []⟩
    | _ => ⟨.error (.UnpextectedContainerStatus st.status), m, []⟩

/-- The vsock ports of the registry's entries, in insertion order. -/
def portsOf (m : ContainerStateMap) : List Nat :=
  m.map (fun p => p.2.vsock_port)

/-- The maximum registered vsock port (0 when the registry is empty). -/
def maxPort (m : ContainerStateMap) : Nat :=
  (portsOf m).foldl max 0

/-- Registry port invariant maintained along echoing create sequences:
ports are strictly increasing in insertion order and at least
`DEFAULT_MIN_PORT`. -/
def RegistryInv (m : ContainerStateMap) : Prop :=
  (portsOf m).Pairwise (· < ·) ∧ ∀ x ∈ portsOf m, DEFAULT_MIN_PORT ≤ x

/-- Reply data used by the echoing guest model. -/
def ackData : String := "ack"

/-- One `create` call against a well-behaved guest: both command-queue
sends succeed and the guest acknowledgment echoes the allocated port. -/
def createEcho (m : ContainerStateMap) (container_id : String) (req : CreateRequest) :
    CreateResult :=
  create ⟨true, true, [(allocPort m, ackData)]⟩ m container_id req

/-- Run a sequence of `create` calls against the echoing guest model. -/
def runCreatesEcho : ContainerStateMap → List (String × CreateRequest) → ContainerStateMap
  | m, [] => m
  | m, (cid, req) :: rest =>
    match createEcho m cid req with
    | .ret _ m' _ _ => runCreatesEcho m' rest
    | .panicked m' _ => runCreatesEcho m' rest

/-- The registry after the spec scenario's first call,
`create("c1", bundle=/tmp/b1)`, acknowledged by the guest on port 1234. -/
def scenarioM1 : ContainerStateMap :=
  resultMap (create ⟨true, true, [(1234, ackData)]⟩ [] "c1" ⟨"/tmp/b1"⟩)

/-- The registry after the spec scenario's second call,
`create("c2", bundle=/tmp/b2)`, acknowledged by the guest on port 1235. -/
def scenarioM2 : ContainerStateMap :=
  resultMap (create ⟨true, true, [(1235, ackData)]⟩ scenarioM1 "c2" ⟨"/tmp/b2"⟩)

/-! ### Helper lemmas about the registry model -/

theorem containsKey_false_iff (m : ContainerStateMap) (key : String) :
    containsKey m key = false ↔ mapGet m key = none := by
  unfold containsKey
  cases mapGet m key <;> simp

theorem mapGet_mapUpdate (m : ContainerStateMap) (key : String)
    (f : ContainerState → ContainerState) :
    mapGet (mapUpdate m key f) key = (mapGet m key).map f := by
  induction m with
  | nil => rfl
  | cons p rest ih =>
    obtain ⟨k, v⟩ := p
    by_cases h : k = key <;> simp [mapUpdate, mapGet, h, ih]

theorem mapGet_mapRemove (m : ContainerStateMap) (key : String) :
    mapGet (mapRemove m key) key = none := by
  induction m with
  | nil => rfl
  | cons p rest ih =>
    obtain ⟨k, v⟩ := p
    by_cases h : k = key <;>
      simp [mapRemove, List.filter_cons, h, mapGet] <;>
      simpa [mapRemove] using ih

theorem mapGet_append_of_none (m₁ m₂ : ContainerStateMap) (key : String)
    (h : mapGet m₁ key = none) : mapGet (m₁ ++ m₂) key = mapGet m₂ key := by
  induction m₁ with
  | nil => rfl
  | cons p rest ih =>
    obtain ⟨k, v⟩ := p
    by_cases hk : k = key
    · simp [mapGet, hk] at h
    · simp [mapGet, hk] at h ⊢
      exact ih h

theorem portsOf_append (m₁ m₂ : ContainerStateMap) :
    portsOf (m₁ ++ m₂) = portsOf m₁ ++ portsOf m₂ :=
  List.map_append _ _ _

/-! ### Helper lemmas about `foldl max` and port allocation -/

theorem le_foldl_max (l : List Nat) (a : Nat) : a ≤ l.foldl max a := by
  induction l generalizing a with
  | nil => exact le_refl a
  | cons x l ih =>
    simp only [List.foldl_cons]
    exact le_trans (le_max_left a x) (ih (max a x))

theorem mem_le_foldl_max (l : List Nat) (a x : Nat) (hx : x ∈ l) : x ≤ l.foldl max a := by
  induction l generalizing a with
  | nil => cases hx
  | cons y l ih =>
    simp only [List.foldl_cons]
    rcases List.mem_cons.mp hx with rfl | h
    · exact le_trans (le_max_right a x) (le_foldl_max l (max a x))
    · exact ih (max a y) h

theorem foldl_max_max (l : List Nat) (a b : Nat) :
    l.foldl max (max a b) = max a (l.foldl max b) := by
  induction l generalizing b with
  | nil => rfl
  | cons x l ih =>
    simp only [List.foldl_cons]
    rw [max_assoc, ih]

theorem allocPort_eq (m : ContainerStateMap) :
    allocPort m = (portsOf m).foldl max (DEFAULT_MIN_PORT - 1) + 1 := by
  simp [allocPort, portsOf, List.foldl_map]

theorem lt_allocPort_of_mem (m : ContainerStateMap) (x : Nat) (hx : x ∈ portsOf m) :
    x < allocPort m := by
  rw [allocPort_eq]
  exact Nat.lt_succ_of_le (mem_le_foldl_max _ _ _ hx)

theorem min_le_allocPort (m : ContainerStateMap) : DEFAULT_MIN_PORT ≤ allocPort m := by
  rw [allocPort_eq]
  have := le_foldl_max (portsOf m) (DEFAULT_MIN_PORT - 1)
  simp [DEFAULT_MIN_PORT] at this ⊢
  omega

theorem allocPort_spec (m : ContainerStateMap) (h : RegistryInv m) :
    allocPort m = if m.isEmpty then DEFAULT_MIN_PORT else maxPort m + 1 := by
  cases m with
  | nil => rfl
  | cons p rest =>
    have hmem : p.2.vsock_port ∈ portsOf (p :: rest) := by simp [portsOf]
    have hge : DEFAULT_MIN_PORT ≤ p.2.vsock_port := h.2 _ hmem
    have hle : p.2.vsock_port ≤ (portsOf (p :: rest)).foldl max 0 :=
      mem_le_foldl_max _ _ _ hmem
    have hx : DEFAULT_MIN_PORT - 1 ≤ (portsOf (p :: rest)).foldl max 0 := by omega
    rw [allocPort_eq,
      show (DEFAULT_MIN_PORT - 1 : Nat) = max (DEFAULT_MIN_PORT - 1) 0 from
        (Nat.max_zero _).symm,
      foldl_max_max]
    simp only [List.isEmpty_cons, Bool.false_eq_true, if_false, maxPort]
    rw [Nat.max_eq_right hx]

/-! ### Helper lemmas about echoing create sequences -/

theorem createEcho_of_contains (m : ContainerStateMap) (cid : String) (req : CreateRequest)
    (h : containsKey m cid = true) :
    createEcho m cid req =
      .ret (.error .ContainerAlreadyExists) m [] [(allocPort m, ackData)] := by
  simp [createEcho, create, h]

theorem createEcho_of_not_contains (m : ContainerStateMap) (cid : String)
    (req : CreateRequest) (h : containsKey m cid = false) :
    createEcho m cid req =
      .ret (.ok ()) (m ++ [(cid, ⟨req.bundle, .Creating, allocPort m⟩)])
        [(.Connect (allocPort m), true),
         (.VsockSend (allocPort m) (encodeCreateRequest req), true)] [] := by
  simp [createEcho, create, h, mapInsert]

theorem runCreatesEcho_cons (m : ContainerStateMap) (cid : String) (req : CreateRequest)
    (rest : List (String × CreateRequest)) :
    runCreatesEcho m ((cid, req) :: rest) =
      runCreatesEcho (resultMap (createEcho m cid req)) rest := by
  cases h : createEcho m cid req <;> simp [runCreatesEcho, h, resultMap]

theorem runCreatesEcho_append (a b : List (String × CreateRequest)) :
    ∀ m, runCreatesEcho m (a ++ b) = runCreatesEcho (runCreatesEcho m a) b := by
  induction a with
  | nil => intro m; rfl
  | cons c rest ih =>
    intro m
    obtain ⟨cid, req⟩ := c
    rw [List.cons_append, runCreatesEcho_cons, runCreatesEcho_cons]
    exact ih _

theorem RegistryInv_append (m : ContainerStateMap) (cid bundle : String)
    (stt : VmStatus) (h : RegistryInv m) :
    RegistryInv (m ++ [(cid, ⟨bundle, stt, allocPort m⟩)]) := by
  obtain ⟨hpair, hmin⟩ := h
  constructor
  · rw [portsOf_append]
    refine List.pairwise_append.mpr ⟨hpair, by simp [portsOf], ?_⟩
    intro x hx y hy
    simp [portsOf] at hy
    subst hy
    exact lt_allocPort_of_mem m x hx
  · intro x hx
    rw [portsOf_append] at hx
    rcases List.mem_append.mp hx with hx | hx
    · exact hmin x hx
    · simp [portsOf] at hx
      subst hx
      exact min_le_allocPort m

theorem containsKey_runCreatesEcho (calls : List (String × CreateRequest)) :
    ∀ m c, containsKey m c = false → c ∉ calls.map Prod.fst →
      containsKey (runCreatesEcho m calls) c = false := by
  induction calls with
  | nil => intro m c h _; exact h
  | cons pc rest ih =>
    intro m c h hn
    obtain ⟨cid, req⟩ := pc
    simp only [List.map_cons, List.mem_cons, not_or] at hn
    rw [runCreatesEcho_cons]
    refine ih _ c ?_ hn.2
    by_cases hcid : containsKey m cid = true
    · rw [createEcho_of_contains _ _ _ hcid]
      exact h
    · rw [createEcho_of_not_contains _ _ _ (by simpa using hcid)]
      simp only [resultMap]
      rw [containsKey_false_iff] at h ⊢
      rw [mapGet_append_of_none _ _ _ h]
      simp [mapGet, Ne.symm hn.1]

theorem runCreatesEcho_inv (calls : List (String × CreateRequest)) :
    ∀ m, RegistryInv m →
      (∀ c ∈ calls.map Prod.fst, containsKey m c = false) →
      (calls.map Prod.fst).Nodup →
      RegistryInv (runCreatesEcho m calls) := by
  induction calls with
  | nil => intro m h _ _; exact h
  | cons pc rest ih =>
    intro m hinv hfresh hnd
    obtain ⟨cid, req⟩ := pc
    simp only [List.map_cons, List.nodup_cons] at hnd
    have hcid : containsKey m cid = false := hfresh cid (by simp)
    rw [runCreatesEcho_cons, createEcho_of_not_contains _ _ _ hcid]
    simp only [resultMap]
    refine ih _ (RegistryInv_append m cid req.bundle .Creating hinv) ?_ hnd.2
    intro c hc
    have hcm : containsKey m c = false := hfresh c (by simp [hc])
    have hne : c ≠ cid := fun e => hnd.1 (e ▸ hc)
    rw [containsKey_false_iff] at hcm ⊢
    rw [mapGet_append_of_none _ _ _ hcm]
    simp [mapGet, Ne.symm hne]

/-! ### Claim theorems -/

/-- Claim C8: `create` with a container identifier already present in the
registry fails with `ContainerAlreadyExists`, leaves the registry
unchanged, issues no commands on the command queue, and consumes no
reply-queue entry. -/
theorem create_already_exists (env : CreateEnv) (m : ContainerStateMap)
    (cid : String) (req : CreateRequest) (h : containsKey m cid = true) :
    create env m cid req = .ret (.error .ContainerAlreadyExists) m [] env.replies := by
  simp [create, h]

/-- Witness for C8 on a concrete one-entry registry. -/
theorem create_already_exists_witness :
    create ⟨true, true, [(2000, ackData)]⟩ [("c1", ⟨"/b", .Created, 1234⟩)] "c1" ⟨"/b2"⟩ =
      .ret (.error .ContainerAlreadyExists) [("c1", ⟨"/b", .Created, 1234⟩)] []
        [(2000, ackData)] :=
  create_already_exists ⟨true, true, [(2000, ackData)]⟩ [("c1", ⟨"/b", .Created, 1234⟩)]
    "c1" ⟨"/b2"⟩ (by decide)

/-- Claim C9: every operation other than `create` (delete, kill, start,
state, connect) invoked with a container identifier not present in the
registry fails with `ContainerNotFound`, leaves the registry unchanged
and issues no commands. -/
theorem unknown_container_not_found (m : ContainerStateMap) (cid : String)
    (h : mapGet m cid = none) :
    (∀ b1 b2 : Bool, delete b1 b2 m cid = ⟨.error .ContainerNotFound, m, []⟩)
    ∧ (∀ b : Bool, kill b m cid = ⟨.error .ContainerNotFound, m, []⟩)
    ∧ (∀ b : Bool, start b m cid = ⟨.error .ContainerNotFound, m, []⟩)
    ∧ (∀ b : Bool, state b m cid = ⟨.error .ContainerNotFound, m, []⟩)
    ∧ (∀ port : Nat, connect m cid port = ⟨.error .ContainerNotFound, m, []⟩) := by
  refine ⟨fun b1 b2 => ?_, fun b => ?_, fun b => ?_, fun b => ?_, fun port => ?_⟩ <;>
    simp [delete, kill, start, state, connect, h]

/-- Witness for C9 on the empty registry. -/
theorem unknown_container_not_found_witness :
    delete true true [] "missing" = ⟨.error .ContainerNotFound, [], []⟩ :=
  (unknown_container_not_found [] "missing" rfl).1 true true

/-- Claim C10: if the reply queue is closed (yields no entry) while a
create call is awaiting the guest acknowledgment, the create handler
panics (unwrap on `None`) after both queue sends, rather than returning a
typed error such as `VmCommandFailed` to the caller. -/
theorem create_reply_closed_panics (m : ContainerStateMap) (cid : String)
    (req : CreateRequest) (h : containsKey m cid = false) :
    create ⟨true, true, []⟩ m cid req =
      .panicked m [(.Connect (allocPort m), true),
                   (.VsockSend (allocPort m) (encodeCreateRequest req), true)] := by
  simp [create, h]

/-- Witness for C10 starting from the empty registry. -/
theorem create_reply_closed_panics_witness :
    create ⟨true, true, []⟩ [] "c1" ⟨"/tmp/b1"⟩ =
      .panicked [] [(.Connect (allocPort []), true),
                    (.VsockSend (allocPort []) (encodeCreateRequest ⟨"/tmp/b1"⟩), true)] :=
  create_reply_closed_panics [] "c1" ⟨"/tmp/b1"⟩ rfl

/-- Claim C4: after a successful create, the vsock_port stored in the new
registry entry is the port field of the reply-queue message consumed by
that create call, not necessarily the locally allocated max-plus-one port
that was sent in the `Connect` and `VsockSend` commands; the two agree
only if the reply carries the allocated port. -/
theorem create_stores_reply_port (m : ContainerStateMap) (cid : String)
    (req : CreateRequest) (p : Nat) (d : String) (rest : List (Nat × String))
    (h : containsKey m cid = false) :
    Option.map ContainerState.vsock_port
        (mapGet (resultMap (create ⟨true, true, (p, d) :: rest⟩ m cid req)) cid) = some p
    ∧ (p ≠ allocPort m →
        Option.map ContainerState.vsock_port
            (mapGet (resultMap (create ⟨true, true, (p, d) :: rest⟩ m cid req)) cid)
          ≠ some (allocPort m)) := by
  have hmap : mapGet (resultMap (create ⟨true, true, (p, d) :: rest⟩ m cid req)) cid
      = some ⟨req.bundle, .Creating, p⟩ := by
    simp only [create, h, Bool.false_eq_true, if_false, if_true, resultMap, mapInsert]
    rw [mapGet_append_of_none _ _ _ ((containsKey_false_iff m cid).mp h)]
    simp [mapGet]
  refine ⟨by rw [hmap]; rfl, fun hne => by rw [hmap]; simpa using hne⟩

/-- Witness for C4: a reply on port 9999 is stored even though the
allocated port was 1234. -/
theorem create_stores_reply_port_witness :
    Option.map ContainerState.vsock_port
        (mapGet (resultMap (create ⟨true, true, [(9999, ackData)]⟩ [] "c1" ⟨"/b"⟩)) "c1")
      = some 9999
    ∧ Option.map ContainerState.vsock_port
        (mapGet (resultMap (create ⟨true, true, [(9999, ackData)]⟩ [] "c1" ⟨"/b"⟩)) "c1")
      ≠ some (allocPort []) := by
  have h := create_stores_reply_port [] "c1" ⟨"/b"⟩ 9999 ackData [] rfl
  exact ⟨h.1, h.2 (by decide)⟩

/-- Claim C5: with the command-queue send succeeding, `start` on an
existing container succeeds exactly when its status is `Created`, sending
`VsockSend(port, "start")` and setting the status to `Running`; calling
`start` twice in a row (a successful start followed by another) fails the
second time with `UnpextectedContainerStatus(Running)`, leaving the
registry and the entry unchanged. -/
theorem start_from_created_only (m : ContainerStateMap) (cid : String)
    (st : ContainerState) (h : mapGet m cid = some st) :
    ((start true m cid).result = .ok () ↔ st.status = .Created)
    ∧ (st.status = .Created →
        start true m cid =
          ⟨.ok (), mapUpdate m cid (fun s => { s with status := .Running }),
           [(.VsockSend st.vsock_port startMsg, true)]⟩)
    ∧ (st.status = .Created →
        start true (start true m cid).state_map cid =
          ⟨.error (.UnpextectedContainerStatus .Running),
           (start true m cid).state_map, []⟩
        ∧ mapGet (start true m cid).state_map cid = some { st with status := .Running }) := by
  obtain ⟨bu, sts, vp⟩ := st
  cases sts
  case Created =>
    have h2 : mapGet (mapUpdate m cid fun s => { s with status := VmStatus.Running }) cid
        = some ⟨bu, .Running, vp⟩ := by
      rw [mapGet_mapUpdate, h]
      rfl
    exact ⟨by simp [start, h], fun _ => by simp [start, h],
      fun _ => ⟨by simp [start, h, h2], by simp [start, h, h2]⟩⟩
  case Creating => exact ⟨by simp [start, h], fun hc => by simp at hc, fun hc => by simp at hc⟩
  case Running => exact ⟨by simp [start, h], fun hc => by simp at hc, fun hc => by simp at hc⟩
  case Stopped => exact ⟨by simp [start, h], fun hc => by simp at hc, fun hc => by simp at hc⟩

/-- Witness for C5: starting a `Created` container succeeds. -/
theorem start_from_created_only_witness :
    (start true [("c", ⟨"/b", .Created, 1234⟩)] "c").result = .ok () :=
  ((start_from_created_only [("c", ⟨"/b", .Created, 1234⟩)] "c"
    ⟨"/b", .Created, 1234⟩ (by decide)).1).mpr rfl

/-- Claim C6: with the command-queue send succeeding, `kill` on an
existing container succeeds exactly when its status is `Created` or
`Running`, sending `VsockSend(port, "kill")` and setting the status to
`Stopped`; `kill` on a container whose status is `Stopped` fails with the
unexpected-status error carrying the current status (`Stopped`), leaving
the registry unchanged and issuing no commands. -/
theorem kill_from_created_or_running (m : ContainerStateMap) (cid : String)
    (st : ContainerState) (h : mapGet m cid = some st) :
    ((kill true m cid).result = .ok () ↔ (st.status = .Created ∨ st.status = .Running))
    ∧ (st.status = .Created ∨ st.status = .Running →
        kill true m cid =
          ⟨.ok (), mapUpdate m cid (fun s => { s with status := .Stopped }),
           [(.VsockSend st.vsock_port killMsg, true)]⟩)
    ∧ (st.status = .Stopped →
        kill true m cid = ⟨.error (.UnpextectedContainerStatus .Stopped), m, []⟩) := by
  obtain ⟨bu, sts, vp⟩ := st
  cases sts
  case Created =>
    exact ⟨by simp [kill, h], fun _ => by simp [kill, h], fun hc => by simp at hc⟩
  case Running =>
    exact ⟨by simp [kill, h], fun _ => by simp [kill, h], fun hc => by simp at hc⟩
  case Creating =>
    exact ⟨by simp [kill, h], fun hc => by rcases hc with hc | hc <;> simp at hc,
      fun hc => by simp at hc⟩
  case Stopped =>
    exact ⟨by simp [kill, h], fun hc => by rcases hc with hc | hc <;> simp at hc,
      fun _ => by simp [kill, h]⟩

/-- Witness for C6: killing a `Running` container stops it. -/
theorem kill_from_created_or_running_witness :
    kill true [("c", ⟨"/b", .Running, 7⟩)] "c" =
      ⟨.ok (), mapUpdate [("c", ⟨"/b", .Running, 7⟩)] "c"
        (fun s => { s with status := .Stopped }),
       [(.VsockSend 7 killMsg, true)]⟩ :=
  (kill_from_created_or_running [("c", ⟨"/b", .Running, 7⟩)] "c"
    ⟨"/b", .Running, 7⟩ (by decide)).2.1 (Or.inr rfl)

/-- Claim C7: with both command-queue sends succeeding, `delete` on an
existing container succeeds exactly when its status is `Created` or
`Stopped`, issues `VsockSend(port, "delete")` followed by
`Disconnect(port)` in that order, and removes the entry; a subsequent
`state` call on the same identifier then fails with `ContainerNotFound`. -/
theorem delete_from_created_or_stopped (m : ContainerStateMap) (cid : String)
    (st : ContainerState) (h : mapGet m cid = some st) :
    ((delete true true m cid).result = .ok () ↔ (st.status = .Created ∨ st.status = .Stopped))
    ∧ (st.status = .Created ∨ st.status = .Stopped →
        delete true true m cid =
          ⟨.ok (), mapRemove m cid,
           [(.VsockSend st.vsock_port deleteMsg, true), (.Disconnect st.vsock_port, true)]⟩)
    ∧ (∀ b : Bool,
        state b (mapRemove m cid) cid = ⟨.error .ContainerNotFound, mapRemove m cid, []⟩) := by
  have hr : mapGet (mapRemove m cid) cid = none := mapGet_mapRemove m cid
  obtain ⟨bu, sts, vp⟩ := st
  cases sts
  case Created =>
    exact ⟨by simp [delete, h], fun _ => by simp [delete, h], fun b => by simp [state, hr]⟩
  case Stopped =>
    exact ⟨by simp [delete, h], fun _ => by simp [delete, h], fun b => by simp [state, hr]⟩
  case Creating =>
    exact ⟨by simp [delete, h], fun hc => by rcases hc with hc | hc <;> simp at hc,
      fun b => by simp [state, hr]⟩
  case Running =>
    exact ⟨by simp [delete, h], fun hc => by rcases hc with hc | hc <;> simp at hc,
      fun b => by simp [state, hr]⟩

/-- Witness for C7: deleting a `Stopped` container removes it. -/
theorem delete_from_created_or_stopped_witness :
    delete true true [("c", ⟨"/b", .Stopped, 9⟩)] "c" =
      ⟨.ok (), mapRemove [("c", ⟨"/b", .Stopped, 9⟩)] "c",
       [(.VsockSend 9 deleteMsg, true), (.Disconnect 9, true)]⟩ :=
  (delete_from_created_or_stopped [("c", ⟨"/b", .Stopped, 9⟩)] "c"
    ⟨"/b", .Stopped, 9⟩ (by decide)).2.1 (Or.inr rfl)

/-- Claim C3: for every lifecycle operation, a send on the command queue
that fails (full or closed queue) makes the operation return the
`VmCommandFailed` error with the registry unchanged; the attempt trace
shows the failed send exactly once and last, i.e. it is not retried and
nothing further is issued. -/
theorem queue_send_failure_vm_command_failed :
    (∀ (m : ContainerStateMap) (cid : String) (req : CreateRequest) (b : Bool)
        (rest : List (Nat × String)), containsKey m cid = false →
        create ⟨false, b, rest⟩ m cid req =
          .ret (.error .VmCommandFailed) m [(.Connect (allocPort m), false)] rest)
    ∧ (∀ (m : ContainerStateMap) (cid : String) (req : CreateRequest)
        (rest : List (Nat × String)), containsKey m cid = false →
        create ⟨true, false, rest⟩ m cid req =
          .ret (.error .VmCommandFailed) m
            [(.Connect (allocPort m), true),
             (.VsockSend (allocPort m) (encodeCreateRequest req), false)] rest)
    ∧ (∀ (b : Bool) (m : ContainerStateMap) (cid : String) (st : ContainerState),
        mapGet m cid = some st → st.status = .Created ∨ st.status = .Stopped →
        delete false b m cid =
          ⟨.error .VmCommandFailed, m, [(.VsockSend st.vsock_port deleteMsg, false)]⟩)
    ∧ (∀ (m : ContainerStateMap) (cid : String) (st : ContainerState),
        mapGet m cid = some st → st.status = .Created ∨ st.status = .Stopped →
        delete true false m cid =
          ⟨.error .VmCommandFailed, m,
           [(.VsockSend st.vsock_port deleteMsg, true), (.Disconnect st.vsock_port, false)]⟩)
    ∧ (∀ (m : ContainerStateMap) (cid : String) (st : ContainerState),
        mapGet m cid = some st → st.status = .Created ∨ st.status = .Running →
        kill false m cid =
          ⟨.error .VmCommandFailed, m, [(.VsockSend st.vsock_port killMsg, false)]⟩)
    ∧ (∀ (m : ContainerStateMap) (cid : String) (st : ContainerState),
        mapGet m cid = some st → st.status = .Created →
        start false m cid =
          ⟨.error .VmCommandFailed, m, [(.VsockSend st.vsock_port startMsg, false)]⟩)
    ∧ (∀ (m : ContainerStateMap) (cid : String) (st : ContainerState),
        mapGet m cid = some st →
        state false m cid =
          ⟨.error .VmCommandFailed, m, [(.VsockSend st.vsock_port stateMsg, false)]⟩) := by
  refine ⟨?_, ?_, ?_, ?_, ?_, ?_, ?_⟩
  · intro m cid req b rest h
    simp [create, h]
  · intro m cid req rest h
    simp [create, h]
  · intro b m cid st h hs
    obtain ⟨bu, sts, vp⟩ := st
    rcases hs with hs | hs <;> cases hs <;> simp [delete, h]
  · intro m cid st h hs
    obtain ⟨bu, sts, vp⟩ := st
    rcases hs with hs | hs <;> cases hs <;> simp [delete, h]
  · intro m cid st h hs
    obtain ⟨bu, sts, vp⟩ := st
    rcases hs with hs | hs <;> cases hs <;> simp [kill, h]
  · intro m cid st h hs
    obtain ⟨bu, sts, vp⟩ := st
    cases hs
    simp [start, h]
  · intro m cid st h
    obtain ⟨bu, sts, vp⟩ := st
    simp [state, h]

/-- Witness for C3: a failed send during `kill` of a `Running` container. -/
theorem queue_send_failure_vm_command_failed_witness :
    kill false [("c", ⟨"/b", .Running, 7⟩)] "c" =
      ⟨.error .VmCommandFailed, [("c", ⟨"/b", .Running, 7⟩)],
       [(.VsockSend 7 killMsg, false)]⟩ :=
  queue_send_failure_vm_command_failed.2.2.2.2.1 [("c", ⟨"/b", .Running, 7⟩)] "c"
    ⟨"/b", .Running, 7⟩ (by decide) (Or.inr rfl)

/-- Claim C2 as stated is refuted: after `create("c1")` from the empty
registry and the guest acknowledgment on port 1234, the new entry's
status is `Creating`, not `Created` (the handler inserts
`VmStatus::Creating` and nothing in the daemon ever sets `Created`). -/
theorem create_status_is_creating_not_created :
    Option.map ContainerState.status (mapGet scenarioM1 "c1") = some VmStatus.Creating
    ∧ Option.map ContainerState.status (mapGet scenarioM1 "c1") ≠ some VmStatus.Created := by
  decide

/-- Claim C2 (amended): a create call on an absent container identifier
issues `Connect(port)` then `VsockSend(port, request payload)`, awaits
exactly one entry from the shared reply queue (consuming the head and
leaving the tail) before inserting the new registry entry and returning
success; in the scenario starting from an empty registry, `create("c1")`
succeeds with port 1234 and the entry's status is `Creating` after the
guest acknowledgment, and a subsequent `create("c2")` yields port 1235. -/
theorem create_awaits_one_ack (m : ContainerStateMap) (cid : String)
    (req : CreateRequest) (p : Nat) (d : String) (rest : List (Nat × String))
    (h : containsKey m cid = false) :
    create ⟨true, true, (p, d) :: rest⟩ m cid req =
      .ret (.ok ()) (m ++ [(cid, ⟨req.bundle, .Creating, p⟩)])
        [(.Connect (allocPort m), true),
         (.VsockSend (allocPort m) (encodeCreateRequest req), true)] rest
    ∧ mapGet scenarioM1 "c1" = some ⟨"/tmp/b1", .Creating, 1234⟩
    ∧ allocPort scenarioM1 = 1235
    ∧ mapGet scenarioM2 "c2" = some ⟨"/tmp/b2", .Creating, 1235⟩ := by
  refine ⟨by simp [create, h, mapInsert], by decide, by decide, by decide⟩

/-- Witness for C2 (amended) on the scenario's first call. -/
theorem create_awaits_one_ack_witness :
    create ⟨true, true, [(1234, ackData)]⟩ [] "c1" ⟨"/tmp/b1"⟩ =
      .ret (.ok ()) [("c1", ⟨"/tmp/b1", .Creating, 1234⟩)]
        [(.Connect 1234, true),
         (.VsockSend 1234 (encodeCreateRequest ⟨"/tmp/b1"⟩), true)] [] :=
  (create_awaits_one_ack [] "c1" ⟨"/tmp/b1"⟩ 1234 ackData [] rfl).1

/-- Claim C1 as stated is refuted: two create calls with distinct
container identifiers whose guest acknowledgments both carry port 7 leave
the registry with two entries with the same vsock_port. -/
theorem create_sequence_duplicate_port_cex :
    portsOf (resultMap (create ⟨true, true, [(7, ackData)]⟩
        (resultMap (create ⟨true, true, [(7, ackData)]⟩ [] "c1" ⟨"/tmp/b1"⟩))
        "c2" ⟨"/tmp/b2"⟩)) = [7, 7]
    ∧ ¬ (portsOf (resultMap (create ⟨true, true, [(7, ackData)]⟩
        (resultMap (create ⟨true, true, [(7, ackData)]⟩ [] "c1" ⟨"/tmp/b1"⟩))
        "c2" ⟨"/tmp/b2"⟩))).Nodup := by
  decide

/-- Claim C1 (amended): for every sequence of create calls with distinct
container identifiers starting from the empty registry (no deletes
interleaved), in which every command-queue send succeeds and each guest
acknowledgment carries the allocated port, the registry never contains
two entries with the same vsock_port (at every prefix of the sequence),
every resulting entry has a unique vsock_port, ports are assigned in
non-decreasing order, and the port allocated and stored by each create is
the maximum vsock_port over the current entries plus one, or the fixed
minimum floor 1234 when the registry is empty. -/
theorem create_sequence_port_invariant (calls : List (String × CreateRequest))
    (hdist : (calls.map Prod.fst).Nodup) :
    (∀ p, p <+: calls →
        (portsOf (runCreatesEcho [] p)).Nodup
        ∧ (portsOf (runCreatesEcho [] p)).Pairwise (· ≤ ·))
    ∧ (∀ p cid req rest, calls = p ++ (cid, req) :: rest →
        allocPort (runCreatesEcho [] p) =
          (if (runCreatesEcho [] p).isEmpty then DEFAULT_MIN_PORT
           else maxPort (runCreatesEcho [] p) + 1)
        ∧ mapGet (runCreatesEcho [] (p ++ [(cid, req)])) cid =
            some ⟨req.bundle, .Creating, allocPort (runCreatesEcho [] p)⟩) := by
  have hinvnil : RegistryInv ([] : ContainerStateMap) := ⟨List.Pairwise.nil, by simp [portsOf]⟩
  constructor
  · intro p hp
    have hnd : (p.map Prod.fst).Nodup :=
      List.Nodup.sublist (List.Sublist.map Prod.fst hp.sublist) hdist
    have hinv : RegistryInv (runCreatesEcho [] p) :=
      runCreatesEcho_inv p [] hinvnil (fun c _ => rfl) hnd
    exact ⟨List.Pairwise.imp (fun hlt => ne_of_lt hlt) hinv.1,
      List.Pairwise.imp (fun hlt => le_of_lt hlt) hinv.1⟩
  · intro p cid req rest hcalls
    subst hcalls
    have hmap : (p.map Prod.fst ++ cid :: rest.map Prod.fst).Nodup := by simpa using hdist
    have hpnd : (p.map Prod.fst).Nodup := (List.nodup_append.mp hmap).1
    have hcid_notin : cid ∉ p.map Prod.fst := fun hc =>
      ((List.nodup_append.mp hmap).2.2 hc) (List.mem_cons_self _ _)
    have hinv : RegistryInv (runCreatesEcho [] p) :=
      runCreatesEcho_inv p [] hinvnil (fun c _ => rfl) hpnd
    have hfresh : containsKey (runCreatesEcho [] p) cid = false :=
      containsKey_runCreatesEcho p [] cid rfl hcid_notin
    refine ⟨allocPort_spec _ hinv, ?_⟩
    rw [runCreatesEcho_append p [(cid, req)] [], runCreatesEcho_cons,
      createEcho_of_not_contains _ _ _ hfresh]
    simp only [resultMap, runCreatesEcho]
    rw [mapGet_append_of_none _ _ _ ((containsKey_false_iff _ _).mp hfresh)]
    simp [mapGet]

/-- Witness for C1 (amended) on a two-call sequence. -/
theorem create_sequence_port_invariant_witness :
    (portsOf (runCreatesEcho [] [("c1", ⟨"/tmp/b1"⟩), ("c2", ⟨"/tmp/b2"⟩)])).Nodup :=
  ((create_sequence_port_invariant [("c1", ⟨"/tmp/b1"⟩), ("c2", ⟨"/tmp/b2"⟩)]
    (by decide)).1 [("c1", ⟨"/tmp/b1"⟩), ("c2", ⟨"/tmp/b2"⟩)] (List.prefix_refl _)).1

end Akari
